import Mathlib

/-!
Shallow embedding of the Template Diff & Progress Engine of the
Wplace-BlueMarble userscript.

Sources embedded:
* `src/Pixel.js` — the `Pixel` value type and its predicates.
* `src/Pixel.js` (second part) — `TileProgress` and `TileProgressManager`.
* `src/TemplateArray.js` — `isAnyTemplateInTile`, `getRelevantTemplateTileBlobs`,
  `sortByPriority`.
* `src/templateManager.js` — `drawTemplateOnTile`: the sub-sampled
  classification loop, the palette-filtered composite path, and the
  per-tile progress bookkeeping.

Modelling conventions:
* JS numbers appearing here are non-negative integers (pixel channels,
  counts, tile/pixel coordinates parsed from zero-padded decimal strings),
  so they are modelled as `Nat`.  The `gx < 0 || gy < 0` guard of the
  source is vacuous in this model because the global offsets are products
  of non-negative quantities.
* The JS color-key string `"r,g,b"` (decimal, comma separated, no padding)
  is injective on `(r,g,b)` triples, so it is modelled as the triple itself.
* JS objects used as counters (`obj[key] = (obj[key] || 0) + 1`) are
  modelled as total functions `ColorKey → Nat` with default `0`.
* Tile keys / tile coordinate strings are modelled as lists of character
  codes (`List Nat`), with `startsWithL` modelling `String.startsWith`.
* The embedding is purely functional; the `try`/`catch` blocks of the
  source never fire on the modelled paths (the operations inside them are
  total here), except the snapshot capture whose possible failure is an
  explicit boolean input of the diff pass.
-/

namespace BlueMarble

/-- RGB color key `(r, g, b)`: model of the JS string "r,g,b" produced by
`Pixel.getColorKey` (the decimal comma-separated rendering is injective on
triples, so the triple is a faithful model of the key). -/
abbrev ColorKey := Nat × Nat × Nat

/-- `Pixel` from `src/Pixel.js`: an RGBA sample, each channel 0–255. -/
structure Pixel where
  red : Nat
  green : Nat
  blue : Nat
  alpha : Nat
deriving DecidableEq

/-- `Pixel.isPainted` from `src/Pixel.js`: `alpha >= 64`. -/
def Pixel.isPainted (p : Pixel) : Bool := decide (64 ≤ p.alpha)

/-- `Pixel.isUnpainted` from `src/Pixel.js`: `alpha < 64`. -/
def Pixel.isUnpainted (p : Pixel) : Bool := decide (p.alpha < 64)

/-- `Pixel.getColorKey` from `src/Pixel.js`. -/
def Pixel.getColorKey (p : Pixel) : ColorKey := (p.red, p.green, p.blue)

/-- `Pixel.equalsRGB` from `src/Pixel.js`: equality on the color channels. -/
def Pixel.equalsRGB (p q : Pixel) : Bool :=
  decide (p.red = q.red) && decide (p.green = q.green) && decide (p.blue = q.blue)

/-- A wrong-pixel position record, as pushed by `drawTemplateOnTile`
(`wrongPixelPositions.push({ tx, ty, px, py })`). -/
structure WrongPos where
  tx : Nat
  ty : Nat
  px : Nat
  py : Nat
deriving DecidableEq

/-- The mutable counters accumulated by `drawTemplateOnTile` while
classifying a tile (`paintedPixelCount`, `wrongPixelCount`,
`totalPixelCount`, `paintedPixelColorCounts`, `wrongPixelColorCounts`,
`wrongPixelPositions`). -/
structure Stats where
  totalPixelCount : Nat
  paintedPixelCount : Nat
  wrongPixelCount : Nat
  paintedPixelColorCounts : ColorKey → Nat
  wrongPixelColorCounts : ColorKey → Nat
  wrongPixelPositions : List WrongPos

/-- The initial (all-zero) counters declared at the top of
`drawTemplateOnTile`. -/
def initStats : Stats :=
  { totalPixelCount := 0
    paintedPixelCount := 0
    wrongPixelCount := 0
    paintedPixelColorCounts := fun _ => 0
    wrongPixelColorCounts := fun _ => 0
    wrongPixelPositions := [] }

/-- Model of `obj[key] = (obj[key] || 0) + 1` on a JS object used as a
counter (absent key counts as 0). -/
def bump (f : ColorKey → Nat) (k : ColorKey) : ColorKey → Nat :=
  fun k2 => if k2 = k then f k2 + 1 else f k2

/-- The per-fragment environment of the classification loop in
`drawTemplateOnTile`: the draw multiplier and draw size, the fragment's
tile/pixel coordinates (`Number(template.tileCoords[i])`,
`Number(template.pixelCoords[i])`), the fragment bitmap sampled through
`tempData` (`tempPix x y` is the pixel at `(y*tempWidth + x)*4`), the tile
snapshot `tilePixelsSnapshot` (`snap gx gy` is the pixel at
`(gy*drawSize + gx)*4`), and the active template's `allowedColorsSet`
(`none` models an absent set). -/
structure FragEnv where
  drawMult : Nat
  drawSize : Nat
  tileCoords : Nat × Nat
  pixelCoords : Nat × Nat
  tempPix : Nat → Nat → Pixel
  snap : Nat → Nat → Pixel
  allowedColorsSet : Option (List ColorKey)

/-- `globalOffsetX = Number(template.pixelCoords[0]) * this.drawMult`. -/
def FragEnv.gOffX (e : FragEnv) : Nat := e.pixelCoords.1 * e.drawMult

/-- `globalOffsetY = Number(template.pixelCoords[1]) * this.drawMult`. -/
def FragEnv.gOffY (e : FragEnv) : Nat := e.pixelCoords.2 * e.drawMult

/-- `activeTemplate?.allowedColorsSet ? set.has(key) : false` — the stats
path treats a missing allowed set as "not a Wplace color". -/
def allowedHas (a : Option (List ColorKey)) (k : ColorKey) : Bool :=
  match a with
  | some s => s.contains k
  | none => false

/-- The position record pushed on a wrong classification:
`{ tx: Number(tileCoords[0]), ty: Number(tileCoords[1]),
   px: Number(pixelCoords[0]) + Math.floor((x - 1) / drawMult),
   py: Number(pixelCoords[1]) + Math.floor((y - 1) / drawMult) }`.
(Reachable only at sampled positions, where `x % drawMult = 1`, hence
`x ≥ 1` and the `Nat` subtraction agrees with the JS one.) -/
def wrongAt (env : FragEnv) (x y : Nat) : WrongPos :=
  { tx := env.tileCoords.1
    ty := env.tileCoords.2
    px := env.pixelCoords.1 + (x - 1) / env.drawMult
    py := env.pixelCoords.2 + (y - 1) / env.drawMult }

/-- One iteration of the classification loop body of `drawTemplateOnTile`
(lines 303–406) at local position `(x, y)` of the fragment bitmap:
1. skip unless `(x % drawMult) == 1 && (y % drawMult) == 1`;
2. skip if the global position falls outside the tile
   (`gx >= drawSize || gy >= drawSize`; the `< 0` checks are vacuous);
3. if the template pixel is unpainted: record a wrong classification when
   the snapshot pixel is painted with an allowed color (counting the
   *template* pixel's color key), and never touch `totalPixelCount`;
4. otherwise increment `totalPixelCount`, then classify against the
   snapshot pixel: correct on RGB match, wrong when painted differently,
   nothing when the snapshot pixel is unpainted. -/
def sampleStep (env : FragEnv) (s : Stats) (xy : Nat × Nat) : Stats :=
  if xy.1 % env.drawMult ≠ 1 ∨ xy.2 % env.drawMult ≠ 1 then s
  else if env.drawSize ≤ xy.1 + env.gOffX ∨ env.drawSize ≤ xy.2 + env.gOffY then s
  else
    let shred := env.tempPix xy.1 xy.2
    if shred.isUnpainted then
      let ground := env.snap (xy.1 + env.gOffX) (xy.2 + env.gOffY)
      if ground.isPainted && allowedHas env.allowedColorsSet ground.getColorKey then
        { s with
          wrongPixelCount := s.wrongPixelCount + 1
          wrongPixelColorCounts := bump s.wrongPixelColorCounts shred.getColorKey
          wrongPixelPositions := s.wrongPixelPositions ++ [wrongAt env xy.1 xy.2] }
      else s
    else
      let s1 : Stats := { s with totalPixelCount := s.totalPixelCount + 1 }
      let real := env.snap (xy.1 + env.gOffX) (xy.2 + env.gOffY)
      if real.isPainted && real.equalsRGB shred then
        { s1 with
          paintedPixelCount := s1.paintedPixelCount + 1
          paintedPixelColorCounts := bump s1.paintedPixelColorCounts shred.getColorKey }
      else if real.isPainted then
        { s1 with
          wrongPixelCount := s1.wrongPixelCount + 1
          wrongPixelColorCounts := bump s1.wrongPixelColorCounts shred.getColorKey
          wrongPixelPositions := s1.wrongPixelPositions ++ [wrongAt env xy.1 xy.2] }
      else s1

/-- The row-major iteration domain of the classification loop:
`for (let y = 0; y < h; y++) for (let x = 0; x < w; x++)`. -/
def rowMajor (w h : Nat) : List (Nat × Nat) :=
  (List.range h).flatMap (fun y => (List.range w).map (fun x => (x, y)))

/-- The positions of the iteration domain whose loop body is actually
evaluated (all others hit the `continue` guard
`(x % drawMult) !== 1 || (y % drawMult) !== 1`). -/
def evaluatedPositions (dm w h : Nat) : List (Nat × Nat) :=
  (rowMajor w h).filter (fun xy => decide (xy.1 % dm = 1) && decide (xy.2 % dm = 1))

/-! ## Tile keys and their serialized form

`Template.createTemplateTiles` and `utils.formatTileCoords` are not among
the analyzed sources; their output format is modelled from the spec. -/

/-- The four components of a tile key: `(tileX, tileY)` addresses the
canvas tile, `(pixelX, pixelY)` is the fragment's pixel offset inside it. -/
structure TileKey where
  tileX : Nat
  tileY : Nat
  pixelX : Nat
  pixelY : Nat
deriving DecidableEq

/-- Character codes of the 4-digit zero-padded decimal rendering of `n`
(`48` is the code of `0`); faithful for `n < 10000`. -/
def pad4 (n : Nat) : List Nat :=
  [48 + n / 1000 % 10, 48 + n / 100 % 10, 48 + n / 10 % 10, 48 + n % 10]

/-- Character codes of the 3-digit zero-padded decimal rendering of `n`;
faithful for `n < 1000`. -/
def pad3 (n : Nat) : List Nat :=
  [48 + n / 100 % 10, 48 + n / 10 % 10, 48 + n % 10]

/-- Modelled from the spec: `utils.formatTileCoords` (not under the
analyzed sources) serializes a tile coordinate pair as the zero-padded
fixed-width string `"xxxx,yyyy"` ("tile addresses serialize ... with
zero-padded fixed-width numeric fields"; the in-code comment calls the
result `already padded string "xxxx,yyyy"`).  `44` is the comma code. -/
def prefixCode (x y : Nat) : List Nat := pad4 x ++ [44] ++ pad4 y

/-- Modelled from the spec: the serialized tile key
`"tileX,tileY,pixelX,pixelY"` with zero-padded fixed-width fields, as
produced by `Template.createTemplateTiles` (not under the analyzed
sources); the widths 4,4,3,3 follow the documented example key
`"1231,0047,183,593"`. -/
def keyCode (k : TileKey) : List Nat :=
  prefixCode k.tileX k.tileY ++ ([44] ++ pad3 k.pixelX ++ [44] ++ pad3 k.pixelY)

/-- Model of `String.prototype.startsWith`: `startsWithL p s` is
`s.startsWith(p)` on lists of character codes. -/
def startsWithL : List Nat → List Nat → Bool
  | [], _ => true
  | _ :: _, [] => false
  | a :: as, b :: bs => a == b && startsWithL as bs

/-! ## Template store and tile matcher (`src/TemplateArray.js`) -/

/-- A fragment bitmap at draw resolution, sampled through `getImageData`:
`pix x y` is the pixel at index `(y*width + x)*4`. -/
structure Bitmap where
  width : Nat
  height : Nat
  pix : Nat → Nat → Pixel

/-- `TemplateTileBlob` as constructed by `getRelevantTemplateTileBlobs`:
the fragment bitmap plus the tile/pixel coordinates split out of the key
(the JS keeps them as strings and applies `Number` at use sites; the model
keeps the parsed numbers). -/
structure TemplateTileBlob where
  bitmap : Bitmap
  tileCoords : Nat × Nat
  pixelCoords : Nat × Nat

/-- The slice of a `Template` instance used by the tile matcher and the
diff pass: its sort priority, its chunked tile map (key → fragment bitmap;
`none` models a template whose `chunked` field is not yet populated), and
the derived `tilePrefixes` index (`none` models an absent index). -/
structure Template where
  sortID : Nat
  chunked : Option (List (TileKey × Bitmap))
  tilePrefixes : Option (List (List Nat))

/-- The fallback key scan of `isAnyTemplateInTile`:
`Object.keys(template.chunked).some(k => k.startsWith(tileCoords))`. -/
def scanKeys (ch : List (TileKey × Bitmap)) (tc : List Nat) : Bool :=
  ch.any (fun e => startsWithL tc (keyCode e.1))

/-- The per-template test inside `isAnyTemplateInTile`
(`src/TemplateArray.js` lines 16–26): `false` when `chunked` is absent;
the `tilePrefixes` fast path when that index is present and non-empty;
otherwise the full key scan. -/
def templateTouches (t : Template) (tc : List Nat) : Bool :=
  match t.chunked with
  | none => false
  | some ch =>
    match t.tilePrefixes with
    | some ps => if 0 < ps.length then ps.contains tc else scanKeys ch tc
    | none => scanKeys ch tc

/-- The brute-force variant of the per-template test: always the full key
scan, never the `tilePrefixes` index. -/
def templateTouchesScan (t : Template) (tc : List Nat) : Bool :=
  match t.chunked with
  | none => false
  | some ch => scanKeys ch tc

/-- `TemplateArray.isAnyTemplateInTile`. -/
def isAnyTemplateInTile (ts : List Template) (tc : List Nat) : Bool :=
  ts.any (fun t => templateTouches t tc)

/-- `isAnyTemplateInTile` with every template answered by the brute-force
key scan. -/
def isAnyTemplateInTileScan (ts : List Template) (tc : List Nat) : Bool :=
  ts.any (fun t => templateTouchesScan t tc)

/-- `TemplateArray.getRelevantTemplateTileBlobs`: for each template,
filter its chunked keys by `k.startsWith(tileCoords)`, build a
`TemplateTileBlob` from each match, and keep only the first one; templates
with no match contribute nothing (`filter(Boolean)`).  (The JS reads
`Object.keys(template.chunked)` unguarded; `chunked` is always populated
when this runs, and the unreachable `none` case yields no blob here.) -/
def getRelevantTemplateTileBlobs (ts : List Template) (tc : List Nat) :
    List TemplateTileBlob :=
  ts.filterMap (fun t =>
    match t.chunked with
    | none => none
    | some ch =>
      match ch.filter (fun e => startsWithL tc (keyCode e.1)) with
      | [] => none
      | e :: _ =>
        some { bitmap := e.2
               tileCoords := (e.1.tileX, e.1.tileY)
               pixelCoords := (e.1.pixelX, e.1.pixelY) })

/-- One insertion of the ascending insertion sort modelling
`templates.sort((a, b) => a.sortID - b.sortID)`. -/
def insertSorted (t : Template) : List Template → List Template
  | [] => [t]
  | u :: us => if t.sortID ≤ u.sortID then t :: u :: us else u :: insertSorted t us

/-- `TemplateArray.sortByPriority`: sort ascending by `sortID`
(0 = first = lowest draw priority). -/
def sortByPriority (ts : List Template) : List Template :=
  ts.foldr insertSorted []

/-! ## Progress aggregation (`TileProgress` / `TileProgressManager`) -/

/-- `TileProgress` from `src/Pixel.js` (second part): the per-tile
snapshot of the diff counters. -/
structure TileProgress where
  totalPixelCount : Nat
  paintedPixelCount : Nat
  wrongPixelCount : Nat
  paintedPixelColorCounts : ColorKey → Nat
  wrongPixelColorCounts : ColorKey → Nat
  wrongPixelPositions : List WrongPos

/-- The `new TileProgress({...})` construction at the end of
`drawTemplateOnTile`. -/
def toProgress (s : Stats) : TileProgress :=
  { totalPixelCount := s.totalPixelCount
    paintedPixelCount := s.paintedPixelCount
    wrongPixelCount := s.wrongPixelCount
    paintedPixelColorCounts := s.paintedPixelColorCounts
    wrongPixelColorCounts := s.wrongPixelColorCounts
    wrongPixelPositions := s.wrongPixelPositions }

/-- `TileProgressManager.tileProgress`: a JS `Map` keyed by the padded
tile-coordinate string, modelled as an insertion-ordered association
list (a JS `Map` iterates its entries in insertion order, and `set` on an
existing key updates the value in place). -/
abbrev TileProgressManager := List (List Nat × TileProgress)

/-- `TileProgressManager.set`: `Map.prototype.set` — replace in place if
the key is present, otherwise append. -/
def TileProgressManager.set (m : TileProgressManager) (k : List Nat)
    (p : TileProgress) : TileProgressManager :=
  if m.any (fun e => e.1 == k) then
    m.map (fun e => if e.1 == k then (k, p) else e)
  else m ++ [(k, p)]

/-- `TileProgressManager.get`: `Map.prototype.get`. -/
def TileProgressManager.get (m : TileProgressManager) (k : List Nat) :
    Option TileProgress :=
  m.lookup k

/-- The result record of `TileProgressManager.computeTotalProgress`. -/
structure Totals where
  totalPixelCount : Nat
  paintedPixelCount : Nat
  wrongPixelCount : Nat
  wrongPixelPositions : List WrongPos
deriving DecidableEq

/-- `TileProgressManager.computeTotalProgress`: sum the three counters and
concatenate `wrongPixelPositions` over the stored records in map
(insertion) order. -/
def TileProgressManager.computeTotalProgress (m : TileProgressManager) : Totals :=
  m.foldl
    (fun acc e =>
      { totalPixelCount := acc.totalPixelCount + e.2.totalPixelCount
        paintedPixelCount := acc.paintedPixelCount + e.2.paintedPixelCount
        wrongPixelCount := acc.wrongPixelCount + e.2.wrongPixelCount
        wrongPixelPositions := acc.wrongPixelPositions ++ e.2.wrongPixelPositions })
    { totalPixelCount := 0
      paintedPixelCount := 0
      wrongPixelCount := 0
      wrongPixelPositions := [] }

/-! ## The diff pass (`TemplateManager.drawTemplateOnTile`) -/

/-- The per-pass inputs of `drawTemplateOnTile` that do not come from the
template array: whether the snapshot capture (`context.getImageData`)
succeeded, the captured snapshot itself, the fixed geometry
(`this.tileSize`, `this.drawMult`), and the active template's
(`this.templatesArray[0]`, insertion order, unsorted) `allowedColorsSet`. -/
structure PassEnv where
  snapshotOk : Bool
  snap : Nat → Nat → Pixel
  tileSize : Nat
  drawMult : Nat
  allowedColorsSet : Option (List ColorKey)

/-- The classification environment of one fragment within a pass. -/
def fragEnvOf (pe : PassEnv) (b : TemplateTileBlob) : FragEnv :=
  { drawMult := pe.drawMult
    drawSize := pe.tileSize * pe.drawMult
    tileCoords := b.tileCoords
    pixelCoords := b.pixelCoords
    tempPix := b.bitmap.pix
    snap := pe.snap
    allowedColorsSet := pe.allowedColorsSet }

/-- The stats contribution of one fragment: the classification loop over
its bitmap in row-major order. -/
def classifyFragment (pe : PassEnv) (b : TemplateTileBlob) (s : Stats) : Stats :=
  (rowMajor b.bitmap.width b.bitmap.height).foldl (sampleStep (fragEnvOf pe b)) s

/-- The counters at the end of the fragment loop of `drawTemplateOnTile`:
when the snapshot capture succeeded, the classification loop runs over
every fragment in draw order; when it failed (`tilePixelsSnapshot` null),
the whole stats block is skipped and the counters stay at zero. -/
def emittedStats (pe : PassEnv) (blobs : List TemplateTileBlob) : Stats :=
  if pe.snapshotOk then blobs.foldl (fun s b => classifyFragment pe b s) initStats
  else initStats

/-- The value returned by `drawTemplateOnTile`: either the input tile blob
unmodified (an early return) or the freshly composited canvas. -/
inductive DrawOutput
  | inputBlob
  | composite
deriving DecidableEq

/-- `TemplateManager.drawTemplateOnTile`, at the level of its observable
effects on the returned blob and the progress map: early-return the input
when `templatesShouldBeDrawn` is false or no template touches the tile;
otherwise collect the relevant fragments of the priority-sorted template
array, run the classification loop when the snapshot capture succeeded,
and — whenever at least one fragment was found — store a fresh
`TileProgress` under the padded tile key.  (The rendering itself is
abstracted into the `composite` output value.) -/
def drawTemplateOnTile (shouldDraw : Bool) (ts : List Template) (x y : Nat)
    (pe : PassEnv) (m : TileProgressManager) :
    DrawOutput × TileProgressManager :=
  if !shouldDraw then (.inputBlob, m)
  else
    let tc := prefixCode x y
    let sorted := sortByPriority ts
    if !isAnyTemplateInTile sorted tc then (.inputBlob, m)
    else
      let blobs := getRelevantTemplateTileBlobs sorted tc
      let stats := emittedStats pe blobs
      if 0 < blobs.length then (.composite, m.set tc (toProgress stats))
      else (.composite, m)

/-! ## Palette-filtered composite rendering -/

/-- A key of the active template's `colorPalette` object: either a color
key string `"r,g,b"` or the literal bucket `'other'`. -/
inductive PaletteKey
  | color (k : ColorKey)
  | other
deriving DecidableEq, BEq

/-- One `colorPalette` entry `{ count, enabled }`. -/
structure PaletteMeta where
  count : Nat
  enabled : Bool
deriving DecidableEq

/-- `palette?.[key]?.enabled !== false`: an absent entry reads as
enabled. -/
def paletteEnabled (palette : List (PaletteKey × PaletteMeta))
    (k : PaletteKey) : Bool :=
  match palette.lookup k with
  | some meta => meta.enabled
  | none => true

/-- `Object.values(palette).some(v => v?.enabled === false)` — whether any
palette color is disabled, which selects the filtered composite path. -/
def hasDisabled (palette : List (PaletteKey × PaletteMeta)) : Bool :=
  palette.any (fun e => e.2.enabled == false)

/-- The alpha written into the filtered copy for pixel `(x, y)` of a
fragment bitmap (`drawTemplateOnTile` lines 441–468): non-center pixels
and pixels with `alpha < 1` are left untouched; otherwise the pixel's
alpha is zeroed when its color key is outside `allowedColorsSet`
(`!inWplacePalette` short-circuits) or the palette entry looked up under
`inWplacePalette ? key : 'other'` is explicitly disabled.  An absent
`allowedColorsSet` makes every pixel count as in-palette here (note the
default is `true` on this path, unlike the stats path). -/
def filteredAlpha (dm : Nat) (palette : List (PaletteKey × PaletteMeta))
    (allowed : Option (List ColorKey)) (bmp : Bitmap) (x y : Nat) : Nat :=
  let pixel := bmp.pix x y
  if x % dm ≠ 1 ∨ y % dm ≠ 1 then pixel.alpha
  else if pixel.alpha < 1 then pixel.alpha
  else
    let inWplacePalette :=
      match allowed with
      | some s => s.contains pixel.getColorKey
      | none => true
    let isPaletteColorEnabled :=
      paletteEnabled palette
        (if inWplacePalette then PaletteKey.color pixel.getColorKey
         else PaletteKey.other)
    if !inWplacePalette || !isPaletteColorEnabled then 0 else pixel.alpha

/-- The alpha of pixel `(x, y)` of a fragment as composited by
`drawTemplateOnTile`: the raw bitmap when no palette color is disabled
(the cheap path), the filtered copy otherwise. -/
def compositeFragmentAlpha (dm : Nat) (palette : List (PaletteKey × PaletteMeta))
    (allowed : Option (List ColorKey)) (bmp : Bitmap) (x y : Nat) : Nat :=
  if !hasDisabled palette then (bmp.pix x y).alpha
  else filteredAlpha dm palette allowed bmp x y

/-! ## Helper lemmas -/

/-- At a sampled column (`x % drawMult = 1`) the source's
`Math.floor((x - 1) / drawMult)` agrees with plain flooring division of
the offset itself. -/
theorem modOneDiv (dm x : Nat) (hx : x % dm = 1) : (x - 1) / dm = x / dm := by
  rcases Nat.eq_zero_or_pos dm with h0 | hpos
  · subst h0
    simp only [Nat.mod_zero] at hx
    subst hx
    rfl
  · have hlt : 1 < dm := by
      have := Nat.mod_lt x hpos
      omega
    have hdecomp := Nat.div_add_mod x dm
    have hxeq : x = dm * (x / dm) + 1 := by omega
    have h1 : x - 1 = dm * (x / dm) := by omega
    rw [h1, Nat.mul_div_cancel_left _ hpos]

/-- Membership in the row-major iteration domain is exactly being in
bounds. -/
theorem mem_rowMajor (w h x y : Nat) : (x, y) ∈ rowMajor w h ↔ x < w ∧ y < h := by
  constructor
  · intro hmem
    simp only [rowMajor, List.mem_flatMap, List.mem_map, List.mem_range] at hmem
    obtain ⟨y2, hy2, x2, hx2, heq⟩ := hmem
    obtain ⟨h1, h2⟩ := Prod.mk.injEq .. ▸ heq
    exact ⟨h1 ▸ hx2, h2 ▸ hy2⟩
  · intro hb
    simp only [rowMajor, List.mem_flatMap, List.mem_map, List.mem_range]
    exact ⟨y, hb.2, x, hb.1, rfl⟩

/-- `List.any` only depends on the predicate's values on members. -/
theorem any_congr_mem {α : Type} (f g : α → Bool) :
    ∀ (l : List α), (∀ a ∈ l, f a = g a) → l.any f = l.any g
  | [], _ => rfl
  | a :: l, hfg => by
    simp only [List.any_cons]
    rw [hfg a (by simp), any_congr_mem f g l (fun b hb => hfg b (by simp [hb]))]

/-- `startsWithL p s` holds exactly when `p` is an initial segment of
`s`. -/
theorem startsWithL_iff (p : List Nat) :
    ∀ (s : List Nat), startsWithL p s = true ↔ ∃ t, s = p ++ t := by
  induction p with
  | nil =>
    intro s
    simp [startsWithL]
  | cons a as ih =>
    intro s
    cases s with
    | nil =>
      simp [startsWithL]
    | cons b bs =>
      simp only [startsWithL, Bool.and_eq_true, beq_iff_eq, ih, List.cons_append,
        List.cons.injEq]
      constructor
      · rintro ⟨rfl, t, rfl⟩
        exact ⟨t, rfl, rfl⟩
      · rintro ⟨t, rfl, rfl⟩
        exact ⟨rfl, t, rfl⟩

/-- A serialized tile-coordinate pair is a string prefix of a serialized
tile key exactly when it coincides with the key's own serialized
`(tileX, tileY)` pair (both blocks have the fixed width 9). -/
theorem startsWithL_keyCode (x y : Nat) (k : TileKey) :
    startsWithL (prefixCode x y) (keyCode k) = true ↔
      prefixCode x y = prefixCode k.tileX k.tileY := by
  rw [startsWithL_iff]
  constructor
  · rintro ⟨t, ht⟩
    have hlen : (prefixCode x y).length = (prefixCode k.tileX k.tileY).length := by
      simp [prefixCode, pad4]
    have h2 : (keyCode k).take (prefixCode x y).length = prefixCode k.tileX k.tileY := by
      rw [hlen]
      exact List.take_left _ _
    rw [ht, List.take_left] at h2
    exact h2
  · intro heq
    exact ⟨[44] ++ pad3 k.pixelX ++ [44] ++ pad3 k.pixelY, by rw [keyCode, heq]⟩

/-! ## Concrete data used by counterexamples and witnesses -/

/-- An environment whose sampled template pixel `(1,1)` is unpainted
(underlying RGB `(7,7,7)`, alpha 0) while the snapshot pixel there is
painted `(9,9,9)` — a color in the allowed set. -/
def envC1 : FragEnv :=
  { drawMult := 3
    drawSize := 9
    tileCoords := (0, 0)
    pixelCoords := (0, 0)
    tempPix := fun _ _ => ⟨7, 7, 7, 0⟩
    snap := fun _ _ => ⟨9, 9, 9, 255⟩
    allowedColorsSet := some [(9, 9, 9)] }

/-- An environment whose template pixels are the required color
`(10,20,30)` and whose snapshot matches it exactly. -/
def envMatch : FragEnv :=
  { drawMult := 3
    drawSize := 9
    tileCoords := (0, 0)
    pixelCoords := (0, 0)
    tempPix := fun _ _ => ⟨10, 20, 30, 255⟩
    snap := fun _ _ => ⟨10, 20, 30, 255⟩
    allowedColorsSet := some [(10, 20, 30)] }

/-- An environment with a required template color `(10,20,30)` at pixel
offset `(2,5)`, and the snapshot painted a different color `(1,1,1)`. -/
def envMismatch : FragEnv :=
  { drawMult := 3
    drawSize := 45
    tileCoords := (12, 34)
    pixelCoords := (2, 5)
    tempPix := fun _ _ => ⟨10, 20, 30, 255⟩
    snap := fun _ _ => ⟨1, 1, 1, 255⟩
    allowedColorsSet := some [(10, 20, 30)] }

/-! ## Claim C1 -/

/-- Claim C1, counterexample: at a sampled unpainted template pixel over
a painted allowed-color snapshot pixel, the diff pass does record a wrong
classification, but the color it counts is the template pixel's color key
`(7,7,7)`, not the snapshot (ground) pixel's `(9,9,9)` as the claim
states. -/
theorem c1RecordedColorCounterexample :
    (sampleStep envC1 initStats (1, 1)).wrongPixelCount = 1 ∧
    (sampleStep envC1 initStats (1, 1)).wrongPixelColorCounts (9, 9, 9) = 0 ∧
    (sampleStep envC1 initStats (1, 1)).wrongPixelColorCounts (7, 7, 7) = 1 ∧
    (envC1.snap (1 + envC1.gOffX) (1 + envC1.gOffY)).getColorKey = (9, 9, 9) := by
  decide

/-- Claim C1 (amended): when the sampled template pixel is unpainted and
the snapshot pixel is painted with a color in `allowedColorsSet`, the pass
records one wrong classification, counting the *template* pixel's color
key and appending one position entry, and leaves `totalPixelCount` (and
the painted counters) unchanged. -/
theorem c1UnpaintedOverpaintRecordsWrong (env : FragEnv) (s : Stats) (x y : Nat)
    (hx : x % env.drawMult = 1) (hy : y % env.drawMult = 1)
    (hbx : x + env.gOffX < env.drawSize) (hby : y + env.gOffY < env.drawSize)
    (hshred : (env.tempPix x y).isUnpainted = true)
    (hground : (env.snap (x + env.gOffX) (y + env.gOffY)).isPainted = true)
    (hmem : allowedHas env.allowedColorsSet
        ((env.snap (x + env.gOffX) (y + env.gOffY)).getColorKey) = true) :
    sampleStep env s (x, y) =
      { s with
        wrongPixelCount := s.wrongPixelCount + 1
        wrongPixelColorCounts := bump s.wrongPixelColorCounts ((env.tempPix x y).getColorKey)
        wrongPixelPositions := s.wrongPixelPositions ++ [wrongAt env x y] } := by
  simp [sampleStep, hx, hy, Nat.not_le.mpr hbx, Nat.not_le.mpr hby, hshred, hground, hmem]

/-- Witness for the amended claim C1 at a concrete environment. -/
theorem c1Witness :
    (envC1.tempPix 1 1).isUnpainted = true ∧
    sampleStep envC1 initStats (1, 1) =
      { initStats with
        wrongPixelCount := initStats.wrongPixelCount + 1
        wrongPixelColorCounts := bump initStats.wrongPixelColorCounts
          ((envC1.tempPix 1 1).getColorKey)
        wrongPixelPositions := initStats.wrongPixelPositions ++ [wrongAt envC1 1 1] } :=
  ⟨by decide,
    c1UnpaintedOverpaintRecordsWrong envC1 initStats 1 1 (by decide) (by decide)
      (by decide) (by decide) (by decide) (by decide) (by decide)⟩

/-! ## Claim C3 -/

/-- Claim C3: at a sampled required template pixel (alpha ≥ 64), a painted
RGB-matching snapshot pixel increments `paintedPixelCount`, the painted
color counter at the pixel's color key, and `totalPixelCount`, each by 1;
an unpainted snapshot pixel leaves the painted and wrong counters alone
while `totalPixelCount` still increments by 1. -/
theorem c3RequiredPixelCounters (env : FragEnv) (s : Stats) (x y : Nat)
    (hx : x % env.drawMult = 1) (hy : y % env.drawMult = 1)
    (hbx : x + env.gOffX < env.drawSize) (hby : y + env.gOffY < env.drawSize)
    (hreq : (env.tempPix x y).isUnpainted = false) :
    (((env.snap (x + env.gOffX) (y + env.gOffY)).isPainted = true ∧
        (env.snap (x + env.gOffX) (y + env.gOffY)).equalsRGB (env.tempPix x y) = true) →
      sampleStep env s (x, y) =
        { s with
          totalPixelCount := s.totalPixelCount + 1
          paintedPixelCount := s.paintedPixelCount + 1
          paintedPixelColorCounts :=
            bump s.paintedPixelColorCounts ((env.tempPix x y).getColorKey) }) ∧
    ((env.snap (x + env.gOffX) (y + env.gOffY)).isPainted = false →
      sampleStep env s (x, y) = { s with totalPixelCount := s.totalPixelCount + 1 }) := by
  constructor
  · rintro ⟨hp, he⟩
    simp [sampleStep, hx, hy, Nat.not_le.mpr hbx, Nat.not_le.mpr hby, hreq, hp, he]
  · intro hp
    simp [sampleStep, hx, hy, Nat.not_le.mpr hbx, Nat.not_le.mpr hby, hreq, hp]

/-- Witness for claim C3 at a concrete matching environment. -/
theorem c3Witness :
    (envMatch.tempPix 1 1).isUnpainted = false ∧
    (((envMatch.snap (1 + envMatch.gOffX) (1 + envMatch.gOffY)).isPainted = true ∧
        (envMatch.snap (1 + envMatch.gOffX) (1 + envMatch.gOffY)).equalsRGB
          (envMatch.tempPix 1 1) = true) →
      sampleStep envMatch initStats (1, 1) =
        { initStats with
          totalPixelCount := initStats.totalPixelCount + 1
          paintedPixelCount := initStats.paintedPixelCount + 1
          paintedPixelColorCounts :=
            bump initStats.paintedPixelColorCounts ((envMatch.tempPix 1 1).getColorKey) }) ∧
    ((envMatch.snap (1 + envMatch.gOffX) (1 + envMatch.gOffY)).isPainted = false →
      sampleStep envMatch initStats (1, 1) =
        { initStats with totalPixelCount := initStats.totalPixelCount + 1 }) :=
  ⟨by decide,
    c3RequiredPixelCounters envMatch initStats 1 1 (by decide) (by decide) (by decide)
      (by decide) (by decide)⟩

/-! ## Claim C4 -/

/-- Claim C4, counterexample: for `drawMultiplier = 5` (a small odd
integer ≥ 1), the position `(2, 2)` has `2 % 5 = (5 − 1) / 2`, so the
claim says the classification loop evaluates it — but the loop's guard
hardcodes the offset `1` and skips it. -/
theorem c4CenterOffsetCounterexample :
    2 % 5 = (5 - 1) / 2 ∧ 2 < 10 ∧ (2, 2) ∉ evaluatedPositions 5 10 10 := by
  decide

/-- Claim C4 (amended): the classification loop evaluates exactly the
in-bounds positions with `x % drawMult = 1` and `y % drawMult = 1` (the
offset `1` is hardcoded); for the code's fixed `drawMult = 3` this
coincides with the center offset `(3 − 1) / 2`. -/
theorem c4SampledPositions (dm w h x y : Nat) :
    ((x, y) ∈ evaluatedPositions dm w h ↔
      (x < w ∧ y < h ∧ x % dm = 1 ∧ y % dm = 1)) ∧
    ((x, y) ∈ evaluatedPositions 3 w h ↔
      (x < w ∧ y < h ∧ x % 3 = (3 - 1) / 2 ∧ y % 3 = (3 - 1) / 2)) := by
  constructor <;>
    · simp only [evaluatedPositions, List.mem_filter, mem_rowMajor, Bool.and_eq_true,
        decide_eq_true_eq]
      norm_num
      tauto

/-! ## Claim C5 -/

/-- Claim C5: a wrong classification of a required template pixel appends
exactly one entry to `wrongPixelPositions`, whose pixel coordinates are
the floored quotient of the local sample offset by `drawMult`, plus the
fragment's pixel offset (the source's `(x − 1) / drawMult` agrees with
`x / drawMult` at sampled offsets). -/
theorem c5WrongPositionBackConversion (env : FragEnv) (s : Stats) (x y : Nat)
    (hx : x % env.drawMult = 1) (hy : y % env.drawMult = 1)
    (hbx : x + env.gOffX < env.drawSize) (hby : y + env.gOffY < env.drawSize)
    (hreq : (env.tempPix x y).isUnpainted = false)
    (hp : (env.snap (x + env.gOffX) (y + env.gOffY)).isPainted = true)
    (hne : (env.snap (x + env.gOffX) (y + env.gOffY)).equalsRGB (env.tempPix x y) = false) :
    sampleStep env s (x, y) =
      { s with
        totalPixelCount := s.totalPixelCount + 1
        wrongPixelCount := s.wrongPixelCount + 1
        wrongPixelColorCounts := bump s.wrongPixelColorCounts ((env.tempPix x y).getColorKey)
        wrongPixelPositions := s.wrongPixelPositions ++
          [{ tx := env.tileCoords.1
             ty := env.tileCoords.2
             px := env.pixelCoords.1 + x / env.drawMult
             py := env.pixelCoords.2 + y / env.drawMult }] } := by
  simp [sampleStep, hx, hy, Nat.not_le.mpr hbx, Nat.not_le.mpr hby, hreq, hp, hne,
    wrongAt, modOneDiv _ _ hx, modOneDiv _ _ hy]

/-- Witness for claim C5 at a concrete mismatch: local sample `(7, 4)`
with `drawMult = 3` and pixel offset `(2, 5)` yields the template-space
position `(2 + 7/3, 5 + 4/3) = (4, 6)`. -/
theorem c5Witness :
    (envMismatch.snap (7 + envMismatch.gOffX) (4 + envMismatch.gOffY)).equalsRGB
        (envMismatch.tempPix 7 4) = false ∧
    sampleStep envMismatch initStats (7, 4) =
      { initStats with
        totalPixelCount := initStats.totalPixelCount + 1
        wrongPixelCount := initStats.wrongPixelCount + 1
        wrongPixelColorCounts :=
          bump initStats.wrongPixelColorCounts ((envMismatch.tempPix 7 4).getColorKey)
        wrongPixelPositions := initStats.wrongPixelPositions ++
          [{ tx := envMismatch.tileCoords.1
             ty := envMismatch.tileCoords.2
             px := envMismatch.pixelCoords.1 + 7 / envMismatch.drawMult
             py := envMismatch.pixelCoords.2 + 4 / envMismatch.drawMult }] } :=
  ⟨by decide,
    c5WrongPositionBackConversion envMismatch initStats 7 4 (by decide) (by decide)
      (by decide) (by decide) (by decide) (by decide) (by decide)⟩

/-! ## Claim C10 -/

/-- One classification step preserves the invariant that the wrong counter
equals the number of recorded wrong positions. -/
theorem sampleStep_wrongInv (env : FragEnv) (s : Stats) (xy : Nat × Nat)
    (h : s.wrongPixelCount = s.wrongPixelPositions.length) :
    (sampleStep env s xy).wrongPixelCount =
      (sampleStep env s xy).wrongPixelPositions.length := by
  unfold sampleStep
  dsimp only
  repeat' split
  all_goals simp [h, List.length_append]

/-- The classification loop preserves the wrong-counter invariant. -/
theorem foldl_sampleStep_wrongInv (env : FragEnv) :
    ∀ (l : List (Nat × Nat)) (s : Stats),
      s.wrongPixelCount = s.wrongPixelPositions.length →
      (l.foldl (sampleStep env) s).wrongPixelCount =
        (l.foldl (sampleStep env) s).wrongPixelPositions.length
  | [], _, h => h
  | xy :: rest, s, h =>
    foldl_sampleStep_wrongInv env rest _ (sampleStep_wrongInv env s xy h)

/-- The per-fragment loop of a diff pass preserves the wrong-counter
invariant. -/
theorem classifyBlobs_wrongInv (pe : PassEnv) :
    ∀ (bs : List TemplateTileBlob) (s : Stats),
      s.wrongPixelCount = s.wrongPixelPositions.length →
      ((bs.foldl (fun s2 b => classifyFragment pe b s2) s).wrongPixelCount =
        (bs.foldl (fun s2 b => classifyFragment pe b s2) s).wrongPixelPositions.length)
  | [], _, h => h
  | b :: rest, s, h =>
    classifyBlobs_wrongInv pe rest _ (foldl_sampleStep_wrongInv (fragEnvOf pe b) _ s h)

/-- Claim C10: in every `TileProgress` record emitted by a diff pass,
`wrongPixelCount` equals the length of `wrongPixelPositions` — every
wrong-counter increment appends exactly one position entry, and the
skipped-classification record is all zeros. -/
theorem c10WrongCountMatchesPositions (pe : PassEnv) (blobs : List TemplateTileBlob) :
    (toProgress (emittedStats pe blobs)).wrongPixelCount =
      (toProgress (emittedStats pe blobs)).wrongPixelPositions.length := by
  unfold toProgress emittedStats
  split
  · exact classifyBlobs_wrongInv pe blobs initStats rfl
  · rfl

/-! ## Claim C6 -/

/-- A fully opaque fragment bitmap whose color `(1,2,3)` is outside the
allowed set `[(5,5,5)]`. -/
def bmpC6 : Bitmap := { width := 3, height := 3, pix := fun _ _ => ⟨1, 2, 3, 255⟩ }

/-- A palette with an explicitly *enabled* `'other'` bucket and one
disabled color (so the filtered composite path is taken). -/
def paletteC6 : List (PaletteKey × PaletteMeta) :=
  [(PaletteKey.other, ⟨0, true⟩), (PaletteKey.color (5, 5, 5), ⟨1, false⟩)]

/-- A palette whose single color `(1,2,3)` is disabled. -/
def paletteC6b : List (PaletteKey × PaletteMeta) :=
  [(PaletteKey.color (1, 2, 3), ⟨9, false⟩)]

/-- A fragment bitmap of the in-palette color `(1,2,3)`. -/
def bmpC6b : Bitmap := { width := 3, height := 3, pix := fun _ _ => ⟨1, 2, 3, 200⟩ }

/-- Claim C6, counterexample: in the filtered composite path, a sampled
pixel whose color key is outside `allowedColorsSet` has its alpha zeroed
even though the `'other'` palette bucket is explicitly enabled — the
`!inWplacePalette` disjunct hides every non-palette pixel unconditionally,
so an enabled `'other'` bucket never leaves them drawn as the claim
states. -/
theorem c6OtherBucketCounterexample :
    hasDisabled paletteC6 = true ∧
    paletteEnabled paletteC6 PaletteKey.other = true ∧
    ([(5, 5, 5)] : List ColorKey).contains (bmpC6.pix 1 1).getColorKey = false ∧
    1 ≤ (bmpC6.pix 1 1).alpha ∧
    compositeFragmentAlpha 3 paletteC6 (some [(5, 5, 5)]) bmpC6 1 1 = 0 := by
  decide

/-- Claim C6 (amended): in the filtered composite path, a sampled center
pixel with alpha ≥ 1 has its alpha zeroed exactly when its color key is
absent from `allowedColorsSet` (always hidden, regardless of any `'other'`
palette entry) or the palette entry for that color key is explicitly
disabled (an absent entry counts as enabled). -/
theorem c6FilteredAlphaZeroed (palette : List (PaletteKey × PaletteMeta))
    (S : List ColorKey) (bmp : Bitmap) (dm x y : Nat)
    (hdis : hasDisabled palette = true)
    (hx : x % dm = 1) (hy : y % dm = 1)
    (ha : 1 ≤ (bmp.pix x y).alpha) :
    (compositeFragmentAlpha dm palette (some S) bmp x y = 0) ↔
      (S.contains (bmp.pix x y).getColorKey = false ∨
        paletteEnabled palette (PaletteKey.color (bmp.pix x y).getColorKey) = false) := by
  cases hc : S.contains (bmp.pix x y).getColorKey <;>
    cases he : paletteEnabled palette (PaletteKey.color (bmp.pix x y).getColorKey) <;>
    first
    | (have hm : ¬ (bmp.pix x y).getColorKey ∈ S := fun hmem =>
         Bool.eq_false_iff.mp hc (List.elem_iff.mpr hmem)
       simp [compositeFragmentAlpha, filteredAlpha, hdis, hx, hy, Nat.not_lt.mpr ha,
         hc, he, hm, Nat.one_le_iff_ne_zero.mp ha])
    | (have hm := List.elem_iff.mp hc
       simp [compositeFragmentAlpha, filteredAlpha, hdis, hx, hy, Nat.not_lt.mpr ha,
         hc, he, hm, Nat.one_le_iff_ne_zero.mp ha])

/-- Witness for the amended claim C6: a sampled pixel of the in-palette
color `(1,2,3)` is hidden exactly because its palette entry is
disabled. -/
theorem c6Witness :
    hasDisabled paletteC6b = true ∧
    ((compositeFragmentAlpha 3 paletteC6b (some [(1, 2, 3)]) bmpC6b 1 1 = 0) ↔
      (([(1, 2, 3)] : List ColorKey).contains (bmpC6b.pix 1 1).getColorKey = false ∨
        paletteEnabled paletteC6b (PaletteKey.color (bmpC6b.pix 1 1).getColorKey) = false)) :=
  ⟨by decide,
    c6FilteredAlphaZeroed paletteC6b [(1, 2, 3)] bmpC6b 3 1 1 (by decide) (by decide)
      (by decide) (by decide)⟩

/-! ## Claim C9 -/

/-- Claim C9: after recording exactly two tiles A and B at distinct
addresses, `computeTotalProgress` returns the element-wise sums of the
three counters and the concatenation of the wrong-pixel positions, A's
first (recording order). -/
theorem c9TotalsOfTwoTiles (kA kB : List Nat) (pA pB : TileProgress) (hne : kA ≠ kB) :
    TileProgressManager.computeTotalProgress
        (TileProgressManager.set (TileProgressManager.set [] kA pA) kB pB) =
      { totalPixelCount := pA.totalPixelCount + pB.totalPixelCount
        paintedPixelCount := pA.paintedPixelCount + pB.paintedPixelCount
        wrongPixelCount := pA.wrongPixelCount + pB.wrongPixelCount
        wrongPixelPositions := pA.wrongPixelPositions ++ pB.wrongPixelPositions } := by
  have h1 : TileProgressManager.set [] kA pA = [(kA, pA)] := rfl
  have h2 : TileProgressManager.set [(kA, pA)] kB pB = [(kA, pA), (kB, pB)] := by
    simp [TileProgressManager.set, hne]
  rw [h1, h2]
  simp [TileProgressManager.computeTotalProgress]

/-- A first concrete tile record. -/
def progA : TileProgress :=
  { totalPixelCount := 3
    paintedPixelCount := 2
    wrongPixelCount := 1
    paintedPixelColorCounts := fun _ => 0
    wrongPixelColorCounts := fun _ => 0
    wrongPixelPositions := [⟨0, 0, 1, 1⟩] }

/-- A second concrete tile record. -/
def progB : TileProgress :=
  { totalPixelCount := 7
    paintedPixelCount := 5
    wrongPixelCount := 2
    paintedPixelColorCounts := fun _ => 0
    wrongPixelColorCounts := fun _ => 0
    wrongPixelPositions := [⟨0, 1, 2, 2⟩, ⟨0, 1, 3, 3⟩] }

/-- Witness for claim C9 at two concrete tile addresses. -/
theorem c9Witness :
    prefixCode 0 0 ≠ prefixCode 0 1 ∧
    TileProgressManager.computeTotalProgress
        (TileProgressManager.set
          (TileProgressManager.set [] (prefixCode 0 0) progA) (prefixCode 0 1) progB) =
      { totalPixelCount := progA.totalPixelCount + progB.totalPixelCount
        paintedPixelCount := progA.paintedPixelCount + progB.paintedPixelCount
        wrongPixelCount := progA.wrongPixelCount + progB.wrongPixelCount
        wrongPixelPositions := progA.wrongPixelPositions ++ progB.wrongPixelPositions } :=
  ⟨by decide, c9TotalsOfTwoTiles _ _ _ _ (by decide)⟩

/-! ## Claim C2 -/

/-- A 9×9 fully painted fragment bitmap. -/
def bmpC2 : Bitmap := { width := 9, height := 9, pix := fun _ _ => ⟨10, 20, 30, 255⟩ }

/-- The tile key `"0000,0000,000,000"`. -/
def tkC2 : TileKey := ⟨0, 0, 0, 0⟩

/-- A template owning one fragment at tile `(0,0)`, with a consistent
`tilePrefixes` index. -/
def tplC2 : Template :=
  { sortID := 0
    chunked := some [(tkC2, bmpC2)]
    tilePrefixes := some [prefixCode 0 0] }

/-- A pass environment whose snapshot capture failed
(`context.getImageData` threw). -/
def peC2 : PassEnv :=
  { snapshotOk := false
    snap := fun _ _ => ⟨0, 0, 0, 0⟩
    tileSize := 3
    drawMult := 3
    allowedColorsSet := none }

/-- A non-trivial prior progress record for tile `(0,0)`. -/
def progPrior : TileProgress :=
  { totalPixelCount := 5
    paintedPixelCount := 4
    wrongPixelCount := 1
    paintedPixelColorCounts := fun _ => 0
    wrongPixelColorCounts := fun _ => 0
    wrongPixelPositions := [⟨0, 0, 0, 0⟩] }

/-- A progress map already holding `progPrior` for tile `(0,0)`. -/
def mgrPrior : TileProgressManager :=
  TileProgressManager.set [] (prefixCode 0 0) progPrior

/-- Claim C2, divergence exhibit: when the snapshot capture fails on a
tile that has a template fragment, the pass still renders and returns the
composite, and classification is skipped (the emitted counters are all
zero) — but the aggregator's record for the tile is *not* left as it was:
the prior record (`totalPixelCount = 5`) is overwritten by a fresh
all-zero `TileProgress`, contradicting the claim (and the source's own
comment "If reading fails for any reason, we will skip stats"). -/
theorem c2SnapshotFailureOverwritesRecord :
    (mgrPrior.get (prefixCode 0 0)).map TileProgress.totalPixelCount = some 5 ∧
    (drawTemplateOnTile true [tplC2] 0 0 peC2 mgrPrior).1 = DrawOutput.composite ∧
    ((drawTemplateOnTile true [tplC2] 0 0 peC2 mgrPrior).2.get (prefixCode 0 0)).map
        TileProgress.totalPixelCount = some 0 ∧
    ((drawTemplateOnTile true [tplC2] 0 0 peC2 mgrPrior).2.get (prefixCode 0 0)).map
        TileProgress.wrongPixelCount = some 0 := by
  decide

/-! ## Claim C7 -/

/-- For a template whose `tilePrefixes` index is exactly the serialized
`(tileX, tileY)` prefixes of its chunked keys, the per-template test of
`isAnyTemplateInTile` (fast path included) agrees with the brute-force
key scan. -/
theorem templateTouches_eq_scan (t : Template) (x y : Nat)
    (hps : ∀ ch, t.chunked = some ch →
      t.tilePrefixes = some (ch.map (fun e => prefixCode e.1.tileX e.1.tileY))) :
    templateTouches t (prefixCode x y) = templateTouchesScan t (prefixCode x y) := by
  rcases hch : t.chunked with _ | ch
  · simp [templateTouches, templateTouchesScan, hch]
  · have hp := hps ch hch
    rcases ch with _ | ⟨e0, rest⟩
    · simp [templateTouches, templateTouchesScan, hch, hp, scanKeys]
    · simp only [templateTouches, templateTouchesScan, hch, hp]
      rw [if_pos (by simp)]
      have hfast : (((e0 :: rest).map (fun e => prefixCode e.1.tileX e.1.tileY)).contains
            (prefixCode x y) = true) ↔
          ∃ e ∈ e0 :: rest, prefixCode x y = prefixCode e.1.tileX e.1.tileY := by
        constructor
        · intro hcon
          obtain ⟨a, ha, heq⟩ := List.mem_map.mp (List.elem_iff.mp hcon)
          exact ⟨a, ha, heq.symm⟩
        · rintro ⟨a, ha, heq⟩
          exact List.elem_iff.mpr (List.mem_map.mpr ⟨a, ha, heq.symm⟩)
      have hscan : (scanKeys (e0 :: rest) (prefixCode x y) = true) ↔
          ∃ e ∈ e0 :: rest, prefixCode x y = prefixCode e.1.tileX e.1.tileY := by
        simp only [scanKeys, List.any_eq_true, startsWithL_keyCode]
      exact Bool.coe_iff_coe.mp (hfast.trans hscan.symm)

/-- Claim C7: for every template and every tile-coordinate prefix, the
overlap test through the `tilePrefixes` index and the brute-force scan of
the chunked keys return identical results, provided the index is exactly
the set of serialized `(tileX, tileY)` prefixes of the keys. -/
theorem c7TouchesTileFastEqScan (t : Template) (x y : Nat)
    (hps : ∀ ch, t.chunked = some ch →
      t.tilePrefixes = some (ch.map (fun e => prefixCode e.1.tileX e.1.tileY))) :
    templateTouches t (prefixCode x y) = templateTouchesScan t (prefixCode x y) :=
  templateTouches_eq_scan t x y hps

/-- Witness for claim C7 at a concrete one-fragment template. -/
theorem c7Witness :
    tplC2.tilePrefixes = some [prefixCode tkC2.tileX tkC2.tileY] ∧
    templateTouches tplC2 (prefixCode 0 0) = templateTouchesScan tplC2 (prefixCode 0 0) :=
  ⟨rfl,
    c7TouchesTileFastEqScan tplC2 0 0 (by
      intro ch hch
      simp only [tplC2] at hch ⊢
      injection hch with h2
      subst h2
      rfl)⟩

/-! ## Claim C8 -/

/-- A template none of whose keys start with the queried prefix does not
touch the tile, on either path. -/
theorem templateTouches_false (t : Template) (x y : Nat)
    (hps : ∀ ch, t.chunked = some ch →
      t.tilePrefixes = some (ch.map (fun e => prefixCode e.1.tileX e.1.tileY)))
    (hno : ∀ ch, t.chunked = some ch →
      ∀ e ∈ ch, startsWithL (prefixCode x y) (keyCode e.1) = false) :
    templateTouches t (prefixCode x y) = false := by
  rw [templateTouches_eq_scan t x y hps]
  rcases hch : t.chunked with _ | ch
  · simp [templateTouchesScan, hch]
  · simp only [templateTouchesScan, hch, scanKeys]
    apply List.any_eq_false.mpr
    intro e he
    simp [hno ch hch e he]

/-- Membership through one step of the insertion sort. -/
theorem mem_insertSorted (t a : Template) :
    ∀ (l : List Template), a ∈ insertSorted t l ↔ a = t ∨ a ∈ l
  | [] => by simp [insertSorted]
  | u :: us => by
    simp only [insertSorted]
    split
    · simp [List.mem_cons]
    · simp only [List.mem_cons, mem_insertSorted t a us]
      tauto

/-- `sortByPriority` preserves membership. -/
theorem mem_sortByPriority (a : Template) :
    ∀ (l : List Template), a ∈ sortByPriority l ↔ a ∈ l
  | [] => Iff.rfl
  | t :: l => by
    simp only [sortByPriority, List.foldr_cons]
    rw [mem_insertSorted,
      show List.foldr insertSorted [] l = sortByPriority l from rfl,
      mem_sortByPriority a l]
    simp [List.mem_cons]

/-- Claim C8: when no chunked key of any template starts with the queried
tile prefix (and the `tilePrefixes` indices are consistent), the tile
matcher returns the empty sequence and `drawTemplateOnTile` early-returns
the input blob with the progress map untouched. -/
theorem c8NoOverlapLeavesTileUntouched (ts : List Template) (x y : Nat)
    (pe : PassEnv) (m : TileProgressManager)
    (hps : ∀ t ∈ ts, ∀ ch, t.chunked = some ch →
      t.tilePrefixes = some (ch.map (fun e => prefixCode e.1.tileX e.1.tileY)))
    (hno : ∀ t ∈ ts, ∀ ch, t.chunked = some ch →
      ∀ e ∈ ch, startsWithL (prefixCode x y) (keyCode e.1) = false) :
    getRelevantTemplateTileBlobs (sortByPriority ts) (prefixCode x y) = [] ∧
    drawTemplateOnTile true ts x y pe m = (DrawOutput.inputBlob, m) := by
  have hmem : ∀ t ∈ sortByPriority ts, t ∈ ts := fun t ht =>
    (mem_sortByPriority t ts).mp ht
  have hany : isAnyTemplateInTile (sortByPriority ts) (prefixCode x y) = false := by
    apply List.any_eq_false.mpr
    intro t ht
    rw [templateTouches_false t x y (hps t (hmem t ht)) (hno t (hmem t ht))]
    simp
  have hrel : getRelevantTemplateTileBlobs (sortByPriority ts) (prefixCode x y) = [] := by
    apply List.filterMap_eq_nil_iff.mpr
    intro t ht
    rcases hch : t.chunked with _ | ch
    · simp [hch]
    · have hfil : ch.filter (fun e => startsWithL (prefixCode x y) (keyCode e.1)) = [] := by
        apply List.filter_eq_nil_iff.mpr
        intro e he
        simp [hno t (hmem t ht) ch hch e he]
      simp [hch, hfil]
  refine ⟨hrel, ?_⟩
  unfold drawTemplateOnTile
  simp [hany]

/-- Witness for claim C8: the template at tile `(0,0)` does not overlap
tile `(1,1)`, so that pass returns the input blob and leaves the prior
progress map unchanged. -/
theorem c8Witness :
    getRelevantTemplateTileBlobs (sortByPriority [tplC2]) (prefixCode 1 1) = [] ∧
    drawTemplateOnTile true [tplC2] 1 1 peC2 mgrPrior = (DrawOutput.inputBlob, mgrPrior) :=
  c8NoOverlapLeavesTileUntouched [tplC2] 1 1 peC2 mgrPrior
    (by
      intro t ht ch hch
      simp only [List.mem_singleton] at ht
      subst ht
      simp only [tplC2] at hch ⊢
      injection hch with h2
      subst h2
      rfl)
    (by
      intro t ht ch hch e he
      simp only [List.mem_singleton] at ht
      subst ht
      simp only [tplC2] at hch
      injection hch with h2
      subst h2
      simp only [List.mem_singleton] at he
      subst he
      decide)

end BlueMarble
